import Mathlib

/-!
Verification development for the ghostty-android JNI bridge
(`src/android/app/src/main/cpp/ghostty_bridge.c`) and the terminal
key-input encoder / paste-safety classifier core it calls into
(libghostty-vt). The bridge functions are translated directly from the
C source. The core library's code is not part of the repository (only
its callers are), so the core operations are modelled from the
specification; each such definition is marked with a doc comment
starting `Modelled from the spec:`.

Conventions: bytes are `Nat` values below 256, byte buffers are
`List Nat`, a nullable Java string is `Option (List Nat)` (`none` is the
NULL reference), and a JNI `jboolean` is `Bool`.
-/

/- ### Core vocabulary (modelled from the spec) -/

/-- Modelled from the spec: the key-event action enumeration
(press, release, repeat) of the missing libghostty-vt core. -/
inductive KeyAction where
  | press
  | release
  | repeatKey
deriving DecidableEq, Repr

/-- Modelled from the spec: the closed logical-key vocabulary of the
missing libghostty-vt core (letters, digits, navigation keys, modifier
keys themselves); `letter c` carries the uppercase ASCII ordinal
(65–90), `unknown` stands for an integer outside the closed vocabulary
arriving through the C enum cast. -/
inductive Key where
  | letter (c : Nat)
  | digit (d : Nat)
  | arrowUp
  | arrowDown
  | arrowRight
  | arrowLeft
  | modifierKey (m : Nat)
  | unknown (code : Nat)
deriving DecidableEq, Repr

/-- Modelled from the spec: a key event value — action, logical key,
modifier bitmask, optional UTF-8 text payload (absent payload is
`none`, distinct from the empty payload `some []`). -/
structure KeyEvent where
  action : KeyAction
  key : Key
  mods : Nat
  utf8 : Option (List Nat)
deriving DecidableEq, Repr

/-- Modelled from the spec: shift bit of the modifier bitmask. -/
def shiftHeld (m : Nat) : Bool := m.testBit 0

/-- Modelled from the spec: control bit of the modifier bitmask. -/
def ctrlHeld (m : Nat) : Bool := m.testBit 1

/-- Modelled from the spec: alt bit of the modifier bitmask. -/
def altHeld (m : Nat) : Bool := m.testBit 2

/-- Modelled from the spec: super/meta bit of the modifier bitmask. -/
def superHeld (m : Nat) : Bool := m.testBit 3

/-- Modelled from the spec: the conventional terminal modifier
parameter — shift=1, alt=2, ctrl=4, meta=8, combined by addition plus a
base offset of 1. -/
def modParam (m : Nat) : Nat :=
  1 + (if shiftHeld m then 1 else 0) + (if altHeld m then 2 else 0)
    + (if ctrlHeld m then 4 else 0) + (if superHeld m then 8 else 0)

/-- Modelled from the spec: the encoder configuration of the missing
core — active protocol mode (legacy vs. extended) and whether release
events are reported. -/
structure KeyEncoderConfig where
  extendedProtocol : Bool
  releaseReporting : Bool
deriving DecidableEq, Repr

/-- Modelled from the spec: the configuration the bridge requests by
passing NULL to `ghostty_key_encoder_new` — legacy protocol, no
release reporting. -/
def defaultConfig : KeyEncoderConfig :=
  { extendedProtocol := false, releaseReporting := false }

/-- Modelled from the spec: the per-event error cases of the encode
operation (unknown key identity, malformed UTF-8 payload). -/
inductive EncodeError where
  | unknownKey
  | invalidUtf8
deriving DecidableEq, Repr

/-- Result codes of the C-level core interface as observed by the
bridge: `GHOSTTY_SUCCESS` versus the failure codes. -/
inductive GhosttyResult where
  | success
  | encodeError
  | bufferTooSmall
deriving DecidableEq, Repr

/- ### UTF-8 validity (modelled from the spec) -/

/-- Modelled from the spec: a UTF-8 continuation byte (0x80–0xBF). -/
def isCont (b : Nat) : Bool := decide (128 ≤ b) && decide (b ≤ 191)

/-- Modelled from the spec: structural well-formedness of a UTF-8 byte
sequence (lead-byte ranges with the right number of continuation
bytes), used by the missing core to reject malformed payloads. -/
def utf8Valid : List Nat → Bool
  | [] => true
  | b :: rest =>
    if b ≤ 127 then utf8Valid rest
    else if b < 194 then false
    else if b ≤ 223 then
      match rest with
      | c1 :: r => isCont c1 && utf8Valid r
      | [] => false
    else if b ≤ 239 then
      match rest with
      | c1 :: c2 :: r => isCont c1 && isCont c2 && utf8Valid r
      | _ => false
    else if b ≤ 244 then
      match rest with
      | c1 :: c2 :: c3 :: r => isCont c1 && isCont c2 && isCont c3 && utf8Valid r
      | _ => false
    else false

/-- Modelled from the spec: validity of an optional UTF-8 payload — an
absent payload is legal, a present payload must be valid UTF-8. -/
def utf8Ok : Option (List Nat) → Bool
  | none => true
  | some t => utf8Valid t

/- ### Key encoding (modelled from the spec) -/

/-- Modelled from the spec: membership of a key value in the closed
vocabulary; values outside it are structurally invalid events. -/
def keyValid : Key → Bool
  | .letter c => decide (65 ≤ c) && decide (c ≤ 90)
  | .digit d => decide (d ≤ 9)
  | .arrowUp => true
  | .arrowDown => true
  | .arrowRight => true
  | .arrowLeft => true
  | .modifierKey m => decide (m ≤ 15)
  | .unknown _ => false

/-- Decimal digit bytes of a modifier parameter (parameters are at
most 16, so two digits suffice). -/
def natDigits (n : Nat) : List Nat :=
  if n < 10 then [48 + n] else [48 + n / 10, 48 + n % 10]

/-- Modelled from the spec: arrow-key CSI encoding — legacy mode emits
`ESC [ final` for unmodified keys; a modifier parameter is appended
(`ESC [ 1 ; p final`) when any modifier is active or the extended
protocol always requests one. -/
def csiArrow (cfg : KeyEncoderConfig) (m : Nat) (finalByte : Nat) : List Nat :=
  if cfg.extendedProtocol || decide (modParam m ≠ 1) then
    [27, 91, 49, 59] ++ natDigits (modParam m) ++ [finalByte]
  else
    [27, 91, finalByte]

/-- Text payload bytes to emit when no special mapping takes
precedence; an absent payload emits nothing. -/
def textBytes : Option (List Nat) → List Nat
  | none => []
  | some t => t

/-- Modelled from the spec: the byte sequence for a structurally valid
press event — fixed CSI mappings for navigation keys; control-character
substitution (C0 byte, uppercase ordinal minus 64) when Control is held
with an ASCII letter key; otherwise the literal UTF-8 payload; a bare
modifier-key press has no mapped sequence. -/
def encodeMain (cfg : KeyEncoderConfig) (ev : KeyEvent) : List Nat :=
  match ev.key with
  | .arrowUp => csiArrow cfg ev.mods 65
  | .arrowDown => csiArrow cfg ev.mods 66
  | .arrowRight => csiArrow cfg ev.mods 67
  | .arrowLeft => csiArrow cfg ev.mods 68
  | .letter c => if ctrlHeld ev.mods then [c - 64] else textBytes ev.utf8
  | .digit _ => textBytes ev.utf8
  | .modifierKey _ => []
  | .unknown _ => []

/-- Modelled from the spec: the core encode operation
`encode(EncoderHandle, KeyEvent) -> bytes | EncodeError` — it rejects
structurally invalid events (unknown key identity, malformed UTF-8
payload) and otherwise produces the mapped byte sequence; release
events produce zero-length output unless release reporting is
configured. -/
def encode (cfg : KeyEncoderConfig) (ev : KeyEvent) : Except EncodeError (List Nat) :=
  if keyValid ev.key = false then Except.error EncodeError.unknownKey
  else if utf8Ok ev.utf8 = false then Except.error EncodeError.invalidUtf8
  else
    match ev.action with
    | KeyAction.release =>
      if cfg.releaseReporting then Except.ok (encodeMain cfg ev) else Except.ok []
    | KeyAction.press => Except.ok (encodeMain cfg ev)
    | KeyAction.repeatKey => Except.ok (encodeMain cfg ev)

/-- Writing an encoded sequence into the first bytes of a
caller-supplied buffer, leaving the rest of the buffer unchanged. -/
def writeBytes (buf out : List Nat) : List Nat := out ++ buf.drop out.length

/-- Modelled from the spec: the C-level
`ghostty_key_encoder_encode(encoder, event, buffer, capacity, &len)`
contract — on success the sequence is written into the buffer and its
length reported; if the sequence would exceed the capacity the call
fails with `BufferTooSmall` and writes no partial output; a rejected
event fails with an encode error and writes nothing. -/
def keyEncoderEncodeBuf (cfg : KeyEncoderConfig) (ev : KeyEvent)
    (buf : List Nat) (cap : Nat) : GhosttyResult × List Nat × Nat :=
  match encode cfg ev with
  | Except.error _ => (GhosttyResult.encodeError, buf, 0)
  | Except.ok out =>
    if cap < out.length then (GhosttyResult.bufferTooSmall, buf, 0)
    else (GhosttyResult.success, writeBytes buf out, out.length)

/-- Modelled from the spec: one stateful encode call against an encoder
instance — the result together with the encoder state after the call
(the configuration is never mutated by encode). -/
def encodeStep (st : KeyEncoderConfig) (ev : KeyEvent) :
    (Except EncodeError (List Nat)) × KeyEncoderConfig :=
  (encode st ev, st)

/- ### Paste-safety classifier (modelled from the spec) -/

/-- Whether the pattern `pat` occurs at the very start of the list. -/
def begins : List Nat → List Nat → Bool
  | [], _ => true
  | _ :: _, [] => false
  | a :: ps, b :: xs => (a == b) && begins ps xs

/-- Whether the pattern `pat` occurs contiguously anywhere in the
list. -/
def containsSeq (pat : List Nat) : List Nat → Bool
  | [] => begins pat []
  | x :: xs => begins pat (x :: xs) || containsSeq pat xs

/-- Bracketed-paste-start sequence `ESC [ 2 0 0 ~`. -/
def bpStart : List Nat := [27, 91, 50, 48, 48, 126]

/-- Bracketed-paste-end sequence `ESC [ 2 0 1 ~`. -/
def bpEnd : List Nat := [27, 91, 50, 48, 49, 126]

/-- Operating System Command introducer `ESC ]`. -/
def oscIntro : List Nat := [27, 93]

/-- A C1 control byte (0x80–0x9F); the spec allows a subset, which it
leaves unspecified, so the model conservatively allows none. -/
def isC1 (b : Nat) : Bool := decide (128 ≤ b) && decide (b ≤ 159)

/-- A CSI parameter or intermediate byte (0x20–0x3F), i.e. not a final
byte. -/
def paramByte (x : Nat) : Bool := decide (32 ≤ x) && decide (x ≤ 63)

/-- Whether the whole list is a single escape sequence left incomplete
at the end of the buffer: a lone `ESC`, or `ESC [` followed only by
parameter/intermediate bytes with no final byte. -/
def incompleteSuffix : List Nat → Bool
  | [27] => true
  | 27 :: 91 :: ps => ps.all paramByte
  | _ => false

/-- Whether the buffer ends in an incomplete escape sequence that
straddles the buffer boundary. -/
def trailingIncomplete : List Nat → Bool
  | [] => false
  | x :: xs => incompleteSuffix (x :: xs) || trailingIncomplete xs

/-- Modelled from the spec: the pure classifier
`is_paste_safe(bytes) -> bool` of the missing core — unsafe when the
buffer contains a bracketed-paste toggle sequence, an OSC introducer, a
disallowed C1 control byte, or an escape sequence left incomplete at
the buffer end; safe otherwise. -/
def pasteIsSafe (l : List Nat) : Bool :=
  !(containsSeq bpStart l || containsSeq bpEnd l || containsSeq oscIntro l
    || l.any isC1 || trailingIncomplete l)

/- ### The JNI bridge (translated from ghostty_bridge.c) -/

/-- Which core calls a `nativeEncodeKey` invocation performed:
whether `ghostty_key_event_new` and `ghostty_key_encoder_encode` were
reached. -/
structure BridgeTrace where
  eventCreated : Bool
  encodeCalled : Bool
deriving DecidableEq, Repr

/-- The key event `nativeEncodeKey` constructs from its Java-side
arguments: the action is set to `GHOSTTY_KEY_ACTION_PRESS`, the key and
modifier bitmask are passed through, and the UTF-8 payload is set only
when the Java string is non-NULL. -/
def bridgeBuildEvent (key : Key) (mods : Nat) (text : Option (List Nat)) : KeyEvent :=
  { action := KeyAction.press, key := key, mods := mods, utf8 := text }

/-- The 256-byte stack buffer `char buffer[256]` of `nativeEncodeKey`. -/
def jniBuf : List Nat := List.replicate 256 0

/-- Translation of
`Java_com_ghostty_android_terminal_GhosttyBridge_nativeEncodeKey`: a
zero handle is rejected up front with NULL before any core call;
otherwise a press event is built from the arguments and encoded into
the 256-byte buffer; any non-success core result returns NULL, a
successful encode of length zero also returns NULL, and only a
successful non-empty encode returns a Java string with the output
bytes. The second component records which core calls were made. -/
def nativeEncodeKey (handle : Nat) (key : Key) (mods : Nat)
    (text : Option (List Nat)) : Option (List Nat) × BridgeTrace :=
  if handle = 0 then
    (none, { eventCreated := false, encodeCalled := false })
  else
    match keyEncoderEncodeBuf defaultConfig (bridgeBuildEvent key mods text) jniBuf 256 with
    | (GhosttyResult.success, buf, len) =>
      if len = 0 then (none, { eventCreated := true, encodeCalled := true })
      else (some (buf.take len), { eventCreated := true, encodeCalled := true })
    | (_, _, _) => (none, { eventCreated := true, encodeCalled := true })

/-- Translation of
`Java_com_ghostty_android_terminal_GhosttyBridge_nativeIsPasteSafe`: a
NULL Java string yields `JNI_FALSE`; otherwise the string bytes are
handed to `ghostty_paste_is_safe` and its verdict is returned as
`JNI_TRUE`/`JNI_FALSE`. -/
def nativeIsPasteSafe : Option (List Nat) → Bool
  | none => false
  | some l => pasteIsSafe l

/-- Translation of
`Java_com_ghostty_android_terminal_GhosttyBridge_nativeCreateKeyEncoder`:
when the core `ghostty_key_encoder_new` call fails the bridge returns
the handle 0, otherwise the (nonzero) encoder pointer value. -/
def nativeCreateKeyEncoder : Option Nat → Nat
  | none => 0
  | some h => h

/-- Translation of
`Java_com_ghostty_android_terminal_GhosttyBridge_nativeDestroyKeyEncoder`:
the returned Bool records whether `ghostty_key_encoder_free` is
invoked — it is skipped exactly when the handle is 0. -/
def nativeDestroyKeyEncoder (handle : Nat) : Bool :=
  if handle = 0 then false else true

/- ### Helper lemmas -/

lemma begins_append (pat l s : List Nat) (h : begins pat l = true) :
    begins pat (l ++ s) = true := by
  induction pat generalizing l with
  | nil => rfl
  | cons a ps ih =>
    cases l with
    | nil => simp [begins] at h
    | cons b xs =>
      simp only [begins, Bool.and_eq_true, beq_iff_eq] at h
      simp only [List.cons_append, begins, Bool.and_eq_true, beq_iff_eq]
      exact ⟨h.1, ih xs h.2⟩

lemma containsSeq_nil_pat (s : List Nat) : containsSeq [] s = true := by
  cases s <;> simp [containsSeq, begins]

lemma containsSeq_append_right (pat l s : List Nat) (h : containsSeq pat l = true) :
    containsSeq pat (l ++ s) = true := by
  induction l with
  | nil =>
    cases pat with
    | nil => exact containsSeq_nil_pat s
    | cons a ps => simp [containsSeq, begins] at h
  | cons x xs ih =>
    simp only [containsSeq, Bool.or_eq_true] at h
    simp only [List.cons_append, containsSeq, Bool.or_eq_true]
    cases h with
    | inl hb => exact Or.inl (begins_append pat (x :: xs) s hb)
    | inr hc => exact Or.inr (ih hc)

lemma containsSeq_append_left (pat p l : List Nat) (h : containsSeq pat l = true) :
    containsSeq pat (p ++ l) = true := by
  induction p with
  | nil => exact h
  | cons a ps ih =>
    simp only [List.cons_append, containsSeq, Bool.or_eq_true]
    exact Or.inr ih

/- ### Claims -/

/-- C1 (amended): for every successful encode whose output length is
zero, the core-level result `GHOSTTY_SUCCESS` is distinct from an error
result — but the Java-visible return of `nativeEncodeKey` is NULL both
for a successful zero-length encoding and for an encode error. -/
theorem c1_zero_length_success_vs_error :
    (∀ (k : Key) (m : Nat) (t : Option (List Nat)),
      encode defaultConfig (bridgeBuildEvent k m t) = Except.ok [] →
      (keyEncoderEncodeBuf defaultConfig (bridgeBuildEvent k m t) jniBuf 256).1
          = GhosttyResult.success ∧
      (nativeEncodeKey 1 k m t).1 = none) ∧
    (∀ (k : Key) (m : Nat) (t : Option (List Nat)) (e : EncodeError),
      encode defaultConfig (bridgeBuildEvent k m t) = Except.error e →
      (keyEncoderEncodeBuf defaultConfig (bridgeBuildEvent k m t) jniBuf 256).1
          = GhosttyResult.encodeError ∧
      (nativeEncodeKey 1 k m t).1 = none) := by
  constructor
  · intro k m t henc
    refine ⟨?_, ?_⟩ <;> simp [nativeEncodeKey, keyEncoderEncodeBuf, henc, writeBytes]
  · intro k m t e henc
    refine ⟨?_, ?_⟩ <;> simp [nativeEncodeKey, keyEncoderEncodeBuf, henc]

/-- Witness for C1: a bare modifier-key press encodes successfully to
zero bytes (core result success, bridge returns NULL), while an
out-of-vocabulary key is an encode error (bridge also returns NULL). -/
theorem c1_witness :
    ((keyEncoderEncodeBuf defaultConfig (bridgeBuildEvent (Key.modifierKey 0) 0 none) jniBuf 256).1
        = GhosttyResult.success ∧
      (nativeEncodeKey 1 (Key.modifierKey 0) 0 none).1 = none) ∧
    ((keyEncoderEncodeBuf defaultConfig (bridgeBuildEvent (Key.unknown 999) 0 none) jniBuf 256).1
        = GhosttyResult.encodeError ∧
      (nativeEncodeKey 1 (Key.unknown 999) 0 none).1 = none) :=
  ⟨c1_zero_length_success_vs_error.1 (Key.modifierKey 0) 0 none rfl,
   c1_zero_length_success_vs_error.2 (Key.unknown 999) 0 none EncodeError.unknownKey rfl⟩

/-- Counterexample for C1 as stated: a successful zero-length encoding
(bare modifier-key press) and an encode error (unknown key) produce the
same Java-visible return of `nativeEncodeKey`, namely NULL — the two
cases do not differ at the Java boundary. -/
theorem c1_counterexample :
    encode defaultConfig (bridgeBuildEvent (Key.modifierKey 0) 0 none) = Except.ok [] ∧
    encode defaultConfig (bridgeBuildEvent (Key.unknown 999) 0 none)
        = Except.error EncodeError.unknownKey ∧
    (nativeEncodeKey 1 (Key.modifierKey 0) 0 none).1
        = (nativeEncodeKey 1 (Key.unknown 999) 0 none).1 :=
  ⟨rfl, rfl, rfl⟩

/-- C2: `is_paste_safe` on the empty buffer returns safe, and
`nativeIsPasteSafe` on an empty (zero-length, non-NULL) input returns
`JNI_TRUE`. -/
theorem c2_empty_paste_safe :
    pasteIsSafe [] = true ∧ nativeIsPasteSafe (some []) = true := by
  decide

/-- C3: the paste-safety classifier is total — every byte buffer,
however malformed, receives a {safe, unsafe} verdict and never an
error, and the bridge maps a NULL Java string to the unsafe verdict
`JNI_FALSE` rather than failing. -/
theorem c3_classifier_total :
    (∀ l : List Nat, pasteIsSafe l = true ∨ pasteIsSafe l = false) ∧
    (∀ d : Option (List Nat), nativeIsPasteSafe d = true ∨ nativeIsPasteSafe d = false) ∧
    nativeIsPasteSafe none = false := by
  exact ⟨fun l => (pasteIsSafe l).eq_false_or_eq_true,
    fun d => (nativeIsPasteSafe d).eq_false_or_eq_true, rfl⟩

/-- C4: encoding is deterministic — encoding the same event twice in
sequence against an encoder yields byte-identical results, and encode
never mutates the encoder state. -/
theorem c4_encode_deterministic (st : KeyEncoderConfig) (ev : KeyEvent) :
    (encodeStep st ev).1 = (encodeStep (encodeStep st ev).2 ev).1 ∧
    (encodeStep st ev).2 = st :=
  ⟨rfl, rfl⟩

/-- C5: whenever the encoded sequence would exceed the caller-supplied
capacity, the core encode fails with `BufferTooSmall` and the caller's
buffer region is returned unchanged, with reported length 0. -/
theorem c5_buffer_too_small_no_partial_write (cfg : KeyEncoderConfig) (ev : KeyEvent)
    (buf : List Nat) (cap : Nat) (out : List Nat)
    (henc : encode cfg ev = Except.ok out) (hcap : cap < out.length) :
    keyEncoderEncodeBuf cfg ev buf cap = (GhosttyResult.bufferTooSmall, buf, 0) := by
  simp [keyEncoderEncodeBuf, henc, hcap]

/-- Witness for C5: Control+A encodes to one byte, so capacity 0 fails
with `BufferTooSmall` and leaves the (empty) buffer unchanged. -/
theorem c5_witness :
    keyEncoderEncodeBuf defaultConfig
      { action := KeyAction.press, key := Key.letter 65, mods := 2, utf8 := none } [] 0
      = (GhosttyResult.bufferTooSmall, [], 0) :=
  c5_buffer_too_small_no_partial_write defaultConfig
    { action := KeyAction.press, key := Key.letter 65, mods := 2, utf8 := none }
    [] 0 [1] rfl (by decide)

/-- C6: for every printable ASCII letter key (uppercase ordinal
65–90) pressed with the Control modifier held, encode outputs exactly
the single C0 control byte equal to the uppercase ordinal minus 64. -/
theorem c6_ctrl_letter_c0 (cfg : KeyEncoderConfig) (c m : Nat) (t : Option (List Nat))
    (hc1 : 65 ≤ c) (hc2 : c ≤ 90) (hctrl : ctrlHeld m = true) (ht : utf8Ok t = true) :
    encode cfg { action := KeyAction.press, key := Key.letter c, mods := m, utf8 := t }
      = Except.ok [c - 64] := by
  have hk : keyValid (Key.letter c) = true := by
    simp [keyValid, hc1, hc2]
  simp [encode, hk, ht, encodeMain, hctrl]

/-- Witness for C6: Control+A (ordinal 65, control bit set) encodes to
the single byte 0x01. -/
theorem c6_witness :
    encode defaultConfig
      { action := KeyAction.press, key := Key.letter 65, mods := 2, utf8 := none }
      = Except.ok [1] :=
  c6_ctrl_letter_c0 defaultConfig 65 2 none (by decide) (by decide) (by decide) rfl

/-- C7 (amended): every byte buffer containing the bracketed-paste-end
sequence `ESC [ 2 0 1 ~` anywhere in its content is classified unsafe,
and surrounding such a payload — one whose unsafety comes from
containing that dangerous pattern — with plain printable ASCII text
containing no escape bytes keeps the verdict unsafe. (A payload that is
unsafe only because of a trailing unterminated escape is not covered:
appending ASCII can complete the escape, see the counterexample.) -/
theorem c7_bracketed_paste_end_unsafe (b p s : List Nat)
    (hb : containsSeq bpEnd b = true)
    (hp : p.all (fun x => decide (32 ≤ x) && decide (x ≤ 126)) = true)
    (hs : s.all (fun x => decide (32 ≤ x) && decide (x ≤ 126)) = true) :
    pasteIsSafe b = false ∧ pasteIsSafe (p ++ b ++ s) = false := by
  constructor
  · simp [pasteIsSafe, hb]
  · have h1 : containsSeq bpEnd (b ++ s) = true := containsSeq_append_right bpEnd b s hb
    have h2 : containsSeq bpEnd (p ++ (b ++ s)) = true :=
      containsSeq_append_left bpEnd p (b ++ s) h1
    rw [List.append_assoc]
    simp [pasteIsSafe, h2]

/-- Witness for C7: the bare bracketed-paste-end sequence is unsafe and
remains unsafe when wrapped in the plain ASCII text "hi" and "!". -/
theorem c7_witness :
    pasteIsSafe [27, 91, 50, 48, 49, 126] = false ∧
    pasteIsSafe ([104, 105] ++ [27, 91, 50, 48, 49, 126] ++ [33]) = false :=
  c7_bracketed_paste_end_unsafe [27, 91, 50, 48, 49, 126] [104, 105] [33]
    (by decide) (by decide) (by decide)

/-- Counterexample for C7 as stated: the payload consisting of the lone
byte `ESC` is known-unsafe (an unterminated escape straddling the
buffer end), yet appending the plain ASCII letter `m` (0x6D, not an
escape byte) completes the escape and flips the verdict to safe — so
surrounding an arbitrary known-unsafe payload with escape-free ASCII
can change the verdict. -/
theorem c7_counterexample :
    pasteIsSafe [27] = false ∧ pasteIsSafe ([27] ++ [109]) = true := by
  decide

/-- C8: every key event the bridge submits to the core encoder has
action press — whatever the Java-side arguments of `nativeEncodeKey`,
the constructed event's action is `GHOSTTY_KEY_ACTION_PRESS`, so
release and repeat events cannot be expressed through this interface. -/
theorem c8_action_always_press (k : Key) (m : Nat) (t : Option (List Nat)) :
    (bridgeBuildEvent k m t).action = KeyAction.press :=
  rfl

/-- C9: destroying a null handle is a safe no-op — handle 0 is exactly
what creation returns on failure, and `nativeDestroyKeyEncoder` on
handle 0 never invokes the core free function. -/
theorem c9_destroy_null_noop :
    nativeCreateKeyEncoder none = 0 ∧ nativeDestroyKeyEncoder 0 = false := by
  decide

/-- C10: encoding with the invalid handle 0 is rejected before any core
call — `nativeEncodeKey` returns the error result NULL without creating
a key event and without invoking the core encode function. -/
theorem c10_invalid_handle_rejected (k : Key) (m : Nat) (t : Option (List Nat)) :
    nativeEncodeKey 0 k m t = (none, { eventCreated := false, encodeCalled := false }) :=
  rfl
